import Mathlib

/-!
Verification of the chart-configuration-to-query compiler in
`src/frontend/src/analysis/useAnalysisChart.ts`.

The TypeScript source is shallowly embedded: each `fetch*ChartData` /
`prepare*Query` function becomes a Lean function that threads the chart's
query state explicitly.  A thrown `Error` becomes an error value carried in
the result together with the query state that was current when the throw
happened (in the source, a throw aborts the compile and leaves
`chart.query` as it was).  JavaScript truthiness of the optional string and
number fields is modelled explicitly (`undefined`, the empty string and the
number `0` are falsy).

The configuration record types (`AxisChartConfig`, `MetricChartConfig`,
`DountChartConfig`, `TableChartConfig`) and the collaborator interfaces
(`DataModel`, the query engine) are declared outside this file in the
repository; their shapes are modelled from the spec: `target_value` is an
optional literal number, the other optional columns are optional strings,
the data-model lookups `getDimension` / `getMeasure` return the resolved
column or absence, and `count()` is the synthetic row-count measure.
-/

namespace Insights

/-- A resolved categorical column reference (data-model catalog entry). -/
structure Dimension where
  column_name : String
deriving DecidableEq, Repr

/-- A resolved aggregatable column reference (data-model catalog entry). -/
structure Measure where
  column_name : String
deriving DecidableEq, Repr

/-- Modelled from the spec: `count()` from `query_utils` is the default
Measure representing row count (a synthetic aggregate). -/
def count : Measure := ⟨"count"⟩

/-- Filter predicates are opaque to this module; they are only carried
around, never inspected.  Modelled as strings. -/
abbrev FilterArgs := String

/-- One operation of a query plan, as accepted by the query engine
(`addFilter`, `addSummarize`, `addPivotWider`, `addOrderBy`, `addMutate`). -/
inductive Operation where
  | filter (filters : List FilterArgs)
  | summarize (measures : List Measure) (dimensions : List Dimension)
  | pivotWider (rows : List Dimension) (columns : List Dimension) (values : List Measure)
  | orderBy (column : String) (direction : String)
  | mutate (new_name : String) (data_type : String) (mutation : String)
deriving DecidableEq, Repr

/-- The mutable state of `chart.query`: data source, ordered operation
list, and the auto-execution flag. -/
structure QueryState where
  dataSource : String
  operations : List Operation
  autoExecute : Bool
deriving DecidableEq, Repr

/-- The upstream model query (`model.queries[0]`): a data source and an
ordered operation list, read-only at compile time. -/
structure ModelQuery where
  dataSource : String
  operations : List Operation

/-- The data-model collaborator: typed column lookup returning absence
rather than failing, plus the upstream query. -/
structure DataModel where
  getDimension : String → Option Dimension
  getMeasure : String → Option Measure
  query : ModelQuery

/-- `model.getDimension(x)` where `x : string | undefined` in the source:
looking up an absent name resolves to absence. -/
def getDimensionOpt (model : DataModel) (name : Option String) : Option Dimension :=
  name.bind model.getDimension

/-- `model.getMeasure(x)` where `x : string | undefined` in the source. -/
def getMeasureOpt (model : DataModel) (name : Option String) : Option Measure :=
  name.bind model.getMeasure

/-- JavaScript truthiness of an optional string field: `undefined` and the
empty string are falsy. -/
def strTruthy : Option String → Bool
  | none => false
  | some s => !s.isEmpty

/-- JavaScript truthiness of an optional number field: `undefined` and `0`
are falsy. -/
def numTruthy : Option Int → Bool
  | none => false
  | some n => n != 0

/-- Axis variant of `ChartConfig`.  Modelled from the spec:
x_axis (column name), split_by (optional column name), y_axis (list of
column names); in the source `y_axis` is accessed with optional chaining,
so the whole list may be absent. -/
structure AxisChartConfig where
  x_axis : Option String
  split_by : Option String
  y_axis : Option (List String)
deriving DecidableEq, Repr

/-- Metric variant of `ChartConfig`.  Modelled from the spec:
metric_column, optional target_value (literal number) or target_column,
optional date_column. -/
structure MetricChartConfig where
  metric_column : Option String
  target_value : Option Int
  target_column : Option String
  date_column : Option String
deriving DecidableEq, Repr

/-- Donut variant of `ChartConfig` (the source spells it `Dount`).
Modelled from the spec: label_column, value_column. -/
structure DountChartConfig where
  label_column : Option String
  value_column : Option String
deriving DecidableEq, Repr

/-- Table variant of `ChartConfig`.  Modelled from the spec: rows,
columns and values are (non-optional) lists of column names. -/
structure TableChartConfig where
  rows : List String
  columns : List String
  values : List String
deriving DecidableEq, Repr

/-- The errors thrown by the compile, classified by the spec's taxonomy
(`MissingField`, `ConflictingFields`, `UnknownColumn`) and carrying the
exact message of the `throw new Error(...)` in the source. -/
inductive ChartError where
  | missingField (msg : String)
  | conflictingFields (msg : String)
  | unknownColumn (msg : String)
deriving DecidableEq, Repr

/-- Result of one `fetch*ChartData` call: the query state afterwards, the
error thrown (if any), and whether `chart.query.execute()` was reached. -/
structure FetchResult where
  query : QueryState
  error : Option ChartError
  executed : Bool
deriving DecidableEq, Repr

/-- `resetQuery()`: disable auto-execution, copy the model query's data
source and operation list, and append the chart's filters when non-empty. -/
def resetQuery (model : DataModel) (filters : List FilterArgs)
    (q : QueryState) : QueryState :=
  let modelQuery := model.query
  let q := { q with autoExecute := false }
  let q := { q with dataSource := modelQuery.dataSource }
  let q := { q with operations := modelQuery.operations }
  if filters.length != 0 then
    { q with operations := q.operations ++ [.filter filters] }
  else q

/-- `values = values?.length ? values : [count()]` at the top of
`prepareAxisChartQuery`: an absent or empty measure list is replaced by the
single default row-count measure. -/
def defaultedValues : Option (List Measure) → List Measure
  | some vs => if vs.length != 0 then vs else [count]
  | none => [count]

/-- `prepareAxisChartQuery(row, column, values)`. -/
def prepareAxisChartQuery (model : DataModel) (filters : List FilterArgs)
    (row : Dimension) (column : Option Dimension) (values : Option (List Measure))
    (q0 : QueryState) : QueryState :=
  let values := defaultedValues values
  let q := resetQuery model filters q0
  match column with
  | some c =>
    { q with operations := q.operations ++ [.pivotWider [row] [c] values] }
  | none =>
    { q with operations := q.operations ++ [.summarize values [row]] }

/-- `config.y_axis?.map((y) => model.getMeasure(y)).filter(Boolean)`:
best-effort resolution of the y-axis names to measures (absent when the
whole list is absent). -/
def resolveYAxis (model : DataModel) (y : Option (List String)) : Option (List Measure) :=
  y.map (fun ys => ys.filterMap model.getMeasure)

/-- `fetchAxisChartData(config)`: validation, resolution, build, execute. -/
def fetchAxisChartData (model : DataModel) (filters : List FilterArgs)
    (config : AxisChartConfig) (q : QueryState) : FetchResult :=
  if !(strTruthy config.x_axis) then
    ⟨q, some (.missingField "X-axis is required"), false⟩
  else if config.x_axis == config.split_by then
    ⟨q, some (.conflictingFields "X-axis and split-by cannot be the same"), false⟩
  else
    match getDimensionOpt model config.x_axis with
    | none => ⟨q, some (.unknownColumn "X-axis column not found"), false⟩
    | some row =>
      let column := getDimensionOpt model config.split_by
      let values := resolveYAxis model config.y_axis
      ⟨prepareAxisChartQuery model filters row column values q, none, true⟩

/-- The `target` argument of `prepareMetricQuery`: a literal number
(`typeof target === 'number'`), a resolved measure
(`typeof target === 'object'`), or absent. -/
abbrev MetricTarget := Option (Int ⊕ Measure)

/-- `prepareMetricQuery(metric, target, date)`: the four mutually exclusive
build branches, evaluated in source order. -/
def prepareMetricQuery (model : DataModel) (filters : List FilterArgs)
    (metric : Measure) (target : MetricTarget) (date : Option Dimension)
    (q0 : QueryState) : QueryState :=
  let q := resetQuery model filters q0
  match target with
  | some (.inl n) =>
    if n > 0 then
      { q with operations := q.operations ++
          [.summarize [metric] [],
           .mutate "target" "Decimal" ("literal(" ++ toString n ++ ")")] }
    else
      match date with
      | some d => { q with operations := q.operations ++ [.summarize [metric] [d]] }
      | none => { q with operations := q.operations ++ [.summarize [metric] []] }
  | some (.inr tm) =>
    { q with operations := q.operations ++ [.summarize [metric, tm] []] }
  | none =>
    match date with
    | some d => { q with operations := q.operations ++ [.summarize [metric] [d]] }
    | none => { q with operations := q.operations ++ [.summarize [metric] []] }

/-- `const target = config.target_value ? Number(config.target_value) :
model.getMeasure(config.target_column)`. -/
def resolveMetricTarget (model : DataModel) (config : MetricChartConfig) : MetricTarget :=
  if numTruthy config.target_value then
    config.target_value.map Sum.inl
  else
    (getMeasureOpt model config.target_column).map Sum.inr

/-- `fetchMetricChartData(config)`: validation, resolution, build, execute. -/
def fetchMetricChartData (model : DataModel) (filters : List FilterArgs)
    (config : MetricChartConfig) (q : QueryState) : FetchResult :=
  if numTruthy config.target_value && strTruthy config.target_column then
    ⟨q, some (.conflictingFields "Target value and target column cannot be used together"), false⟩
  else if config.metric_column == config.target_column then
    ⟨q, some (.conflictingFields "Metric and target cannot be the same"), false⟩
  else if strTruthy config.target_column && strTruthy config.date_column then
    ⟨q, some (.conflictingFields "Target and date cannot be used together"), false⟩
  else
    match getMeasureOpt model config.metric_column with
    | none => ⟨q, some (.unknownColumn "Metric column not found"), false⟩
    | some metric =>
      let date := getDimensionOpt model config.date_column
      let target := resolveMetricTarget model config
      ⟨prepareMetricQuery model filters metric target date q, none, true⟩

/-- `prepareDonutQuery(label, value)`. -/
def prepareDonutQuery (model : DataModel) (filters : List FilterArgs)
    (label : Dimension) (value : Measure) (q0 : QueryState) : QueryState :=
  let q := resetQuery model filters q0
  let q := { q with operations := q.operations ++ [Operation.summarize [value] [label]] }
  { q with operations := q.operations ++ [.orderBy value.column_name "desc"] }

/-- `fetchDonutChartData(config)`: validation, resolution, build, execute. -/
def fetchDonutChartData (model : DataModel) (filters : List FilterArgs)
    (config : DountChartConfig) (q : QueryState) : FetchResult :=
  if !(strTruthy config.label_column) then
    ⟨q, some (.missingField "Label is required"), false⟩
  else if !(strTruthy config.value_column) then
    ⟨q, some (.missingField "Value is required"), false⟩
  else
    let label := getDimensionOpt model config.label_column
    let value := getMeasureOpt model config.value_column
    match label with
    | none => ⟨q, some (.unknownColumn "Label column not found"), false⟩
    | some label =>
      match value with
      | none => ⟨q, some (.unknownColumn "Value column not found"), false⟩
      | some value =>
        ⟨prepareDonutQuery model filters label value q, none, true⟩

/-- `prepareTableQuery(rows, columns, values)`: the two build conditions
are written as independent checks in the source, mirrored here. -/
def prepareTableQuery (model : DataModel) (filters : List FilterArgs)
    (rows columns : List Dimension) (values : List Measure)
    (q0 : QueryState) : QueryState :=
  let q := resetQuery model filters q0
  let q :=
    if columns.length == 0 then
      { q with operations := q.operations ++ [Operation.summarize values rows] }
    else q
  if columns.length != 0 then
    { q with operations := q.operations ++ [.pivotWider rows columns values] }
  else q

/-- `fetchTableChartData(config)`: validation, best-effort resolution,
build, execute. -/
def fetchTableChartData (model : DataModel) (filters : List FilterArgs)
    (config : TableChartConfig) (q : QueryState) : FetchResult :=
  if config.rows.length == 0 then
    ⟨q, some (.missingField "Rows are required"), false⟩
  else
    let rows := config.rows.filterMap model.getDimension
    let columns := config.columns.filterMap model.getDimension
    let values := config.values.filterMap model.getMeasure
    ⟨prepareTableQuery model filters rows columns values q, none, true⟩

/-! Concrete fixtures used to evaluate the embedding on closed inputs:
a small data model with three dimensions and three measures, and an
arbitrary initial query state left over from a previous compile. -/

/-- A concrete data model for closed evaluations: dimensions `region`,
`quarter`, `order_date`; measures `revenue`, `signups`, `goal`; upstream
query on data source `orders` with an empty operation list. -/
def testModel : DataModel where
  getDimension := fun n =>
    if n = "region" then some ⟨"region"⟩
    else if n = "quarter" then some ⟨"quarter"⟩
    else if n = "order_date" then some ⟨"order_date"⟩
    else none
  getMeasure := fun n =>
    if n = "revenue" then some ⟨"revenue"⟩
    else if n = "signups" then some ⟨"signups"⟩
    else if n = "goal" then some ⟨"goal"⟩
    else none
  query := ⟨"orders", []⟩

/-- An arbitrary initial query state (stale from a previous compile). -/
def q0 : QueryState := ⟨"stale", [Operation.orderBy "old" "asc"], true⟩

/-! ### Helper lemmas characterising the builders and the fetchers -/

theorem resetQuery_operations (model : DataModel) (filters : List FilterArgs)
    (q : QueryState) :
    (resetQuery model filters q).operations =
      model.query.operations ++
        (if filters.isEmpty then [] else [Operation.filter filters]) := by
  unfold resetQuery
  rcases filters with _ | ⟨f, fs⟩ <;> simp

theorem resetQuery_dataSource (model : DataModel) (filters : List FilterArgs)
    (q : QueryState) :
    (resetQuery model filters q).dataSource = model.query.dataSource := by
  unfold resetQuery
  split <;> rfl

theorem prepareAxisChartQuery_operations (model : DataModel)
    (filters : List FilterArgs) (row : Dimension) (column : Option Dimension)
    (values : Option (List Measure)) (q0 : QueryState) :
    (prepareAxisChartQuery model filters row column values q0).operations =
      (resetQuery model filters q0).operations ++
        (match column with
         | some c => [Operation.pivotWider [row] [c] (defaultedValues values)]
         | none => [Operation.summarize (defaultedValues values) [row]]) := by
  unfold prepareAxisChartQuery
  cases column <;> rfl

theorem prepareDonutQuery_operations (model : DataModel)
    (filters : List FilterArgs) (label : Dimension) (value : Measure)
    (q0 : QueryState) :
    (prepareDonutQuery model filters label value q0).operations =
      (resetQuery model filters q0).operations ++
        [Operation.summarize [value] [label],
         Operation.orderBy value.column_name "desc"] := by
  unfold prepareDonutQuery
  simp

theorem prepareTableQuery_operations (model : DataModel)
    (filters : List FilterArgs) (rows columns : List Dimension)
    (values : List Measure) (q0 : QueryState) :
    (prepareTableQuery model filters rows columns values q0).operations =
      (resetQuery model filters q0).operations ++
        (match columns with
         | [] => [Operation.summarize values rows]
         | _ :: _ => [Operation.pivotWider rows columns values]) := by
  unfold prepareTableQuery
  rcases columns with _ | ⟨c, cs⟩ <;> simp

theorem prepareMetricQuery_operations (model : DataModel)
    (filters : List FilterArgs) (metric : Measure) (target : MetricTarget)
    (date : Option Dimension) (q0 : QueryState) :
    (prepareMetricQuery model filters metric target date q0).operations =
      (resetQuery model filters q0).operations ++
        (match target, date with
         | some (.inl n), d =>
           if n > 0 then
             [Operation.summarize [metric] [],
              Operation.mutate "target" "Decimal" ("literal(" ++ toString n ++ ")")]
           else
             match d with
             | some d => [Operation.summarize [metric] [d]]
             | none => [Operation.summarize [metric] []]
         | some (.inr tm), _ => [Operation.summarize [metric, tm] []]
         | none, some d => [Operation.summarize [metric] [d]]
         | none, none => [Operation.summarize [metric] []]) := by
  unfold prepareMetricQuery
  rcases target with _ | ⟨n | tm⟩ <;> rcases date with _ | d <;>
    simp <;> split <;> simp

theorem prepareAxisChartQuery_dataSource (model : DataModel)
    (filters : List FilterArgs) (row : Dimension) (column : Option Dimension)
    (values : Option (List Measure)) (q0 : QueryState) :
    (prepareAxisChartQuery model filters row column values q0).dataSource =
      model.query.dataSource := by
  unfold prepareAxisChartQuery
  cases column <;> simp [resetQuery_dataSource]

theorem prepareMetricQuery_dataSource (model : DataModel)
    (filters : List FilterArgs) (metric : Measure) (target : MetricTarget)
    (date : Option Dimension) (q0 : QueryState) :
    (prepareMetricQuery model filters metric target date q0).dataSource =
      model.query.dataSource := by
  unfold prepareMetricQuery
  rcases target with _ | ⟨n | tm⟩ <;> rcases date with _ | d <;>
    simp [resetQuery_dataSource] <;> split <;> simp [resetQuery_dataSource]

theorem prepareDonutQuery_dataSource (model : DataModel)
    (filters : List FilterArgs) (label : Dimension) (value : Measure)
    (q0 : QueryState) :
    (prepareDonutQuery model filters label value q0).dataSource =
      model.query.dataSource := by
  unfold prepareDonutQuery
  simp [resetQuery_dataSource]

theorem prepareTableQuery_dataSource (model : DataModel)
    (filters : List FilterArgs) (rows columns : List Dimension)
    (values : List Measure) (q0 : QueryState) :
    (prepareTableQuery model filters rows columns values q0).dataSource =
      model.query.dataSource := by
  unfold prepareTableQuery
  rcases columns with _ | ⟨c, cs⟩ <;> simp [resetQuery_dataSource]

/-- Every run of `fetchAxisChartData` either throws (returning the query
state untouched, not executed) or succeeds with the plan built by
`prepareAxisChartQuery` from the resolved columns. -/
theorem fetchAxis_cases (model : DataModel) (filters : List FilterArgs)
    (config : AxisChartConfig) (q : QueryState) :
    (∃ e, fetchAxisChartData model filters config q = ⟨q, some e, false⟩) ∨
    (∃ row, getDimensionOpt model config.x_axis = some row ∧
      fetchAxisChartData model filters config q =
        ⟨prepareAxisChartQuery model filters row
            (getDimensionOpt model config.split_by)
            (resolveYAxis model config.y_axis) q,
         none, true⟩) := by
  unfold fetchAxisChartData
  split
  · exact Or.inl ⟨_, rfl⟩
  · split
    · exact Or.inl ⟨_, rfl⟩
    · split
      · exact Or.inl ⟨_, rfl⟩
      · next row hrow => exact Or.inr ⟨row, hrow, rfl⟩

/-- Every run of `fetchMetricChartData` either throws (query untouched,
not executed) or succeeds with the plan built by `prepareMetricQuery`. -/
theorem fetchMetric_cases (model : DataModel) (filters : List FilterArgs)
    (config : MetricChartConfig) (q : QueryState) :
    (∃ e, fetchMetricChartData model filters config q = ⟨q, some e, false⟩) ∨
    (∃ metric, getMeasureOpt model config.metric_column = some metric ∧
      fetchMetricChartData model filters config q =
        ⟨prepareMetricQuery model filters metric
            (resolveMetricTarget model config)
            (getDimensionOpt model config.date_column) q,
         none, true⟩) := by
  unfold fetchMetricChartData
  split
  · exact Or.inl ⟨_, rfl⟩
  · split
    · exact Or.inl ⟨_, rfl⟩
    · split
      · exact Or.inl ⟨_, rfl⟩
      · split
        · exact Or.inl ⟨_, rfl⟩
        · next metric hmetric => exact Or.inr ⟨metric, hmetric, rfl⟩

/-- Every run of `fetchDonutChartData` either throws (query untouched,
not executed) or succeeds with the plan built by `prepareDonutQuery`. -/
theorem fetchDonut_cases (model : DataModel) (filters : List FilterArgs)
    (config : DountChartConfig) (q : QueryState) :
    (∃ e, fetchDonutChartData model filters config q = ⟨q, some e, false⟩) ∨
    (∃ label value,
      getDimensionOpt model config.label_column = some label ∧
      getMeasureOpt model config.value_column = some value ∧
      fetchDonutChartData model filters config q =
        ⟨prepareDonutQuery model filters label value q, none, true⟩) := by
  unfold fetchDonutChartData
  split
  · exact Or.inl ⟨_, rfl⟩
  · split
    · exact Or.inl ⟨_, rfl⟩
    · dsimp only
      split
      · exact Or.inl ⟨_, rfl⟩
      · next label hlabel =>
        split
        · exact Or.inl ⟨_, rfl⟩
        · next value hvalue => exact Or.inr ⟨label, value, hlabel, hvalue, rfl⟩

/-- Every run of `fetchTableChartData` either throws (query untouched,
not executed) or succeeds with the plan built by `prepareTableQuery` from
the best-effort resolved lists. -/
theorem fetchTable_cases (model : DataModel) (filters : List FilterArgs)
    (config : TableChartConfig) (q : QueryState) :
    (∃ e, fetchTableChartData model filters config q = ⟨q, some e, false⟩) ∨
    fetchTableChartData model filters config q =
      ⟨prepareTableQuery model filters
          (config.rows.filterMap model.getDimension)
          (config.columns.filterMap model.getDimension)
          (config.values.filterMap model.getMeasure) q,
       none, true⟩ := by
  unfold fetchTableChartData
  split
  · exact Or.inl ⟨_, rfl⟩
  · exact Or.inr rfl

/-! ### Claim theorems -/

/-- Claim C9: when `metric_column` and `target_column` are both absent, the
equality check `config.metric_column === config.target_column` compares two
absent fields, finds them equal, and the compile fails with the
ConflictingFields error `Metric and target cannot be the same` — it never
reaches the UnknownColumn check for the missing metric column. -/
theorem metric_both_columns_absent_conflicting
    (model : DataModel) (filters : List FilterArgs) (config : MetricChartConfig)
    (q : QueryState)
    (hm : config.metric_column = none) (ht : config.target_column = none) :
    fetchMetricChartData model filters config q =
      ⟨q, some (.conflictingFields "Metric and target cannot be the same"), false⟩ := by
  unfold fetchMetricChartData
  simp [hm, ht, strTruthy]

theorem metric_both_columns_absent_conflicting_witness :
    (MetricChartConfig.mk none (some 5) none (some "order_date")).metric_column = none ∧
    fetchMetricChartData testModel [] ⟨none, some 5, none, some "order_date"⟩ q0 =
      ⟨q0, some (.conflictingFields "Metric and target cannot be the same"), false⟩ :=
  ⟨rfl, metric_both_columns_absent_conflicting testModel [] _ q0 rfl rfl⟩

/-- The Metric configuration showing that the mutual-exclusion check is
skipped when `target_value` is the (falsy) number `0` even though
`target_column` is also set. -/
def zeroTargetConfig : MetricChartConfig :=
  ⟨some "signups", some 0, some "goal", none⟩

/-- Claim C1 (counterexample): with `target_value = 0` and
`target_column = "goal"` both set, the compile does not fail at all — the
truthiness guard `config.target_value && config.target_column` is falsy for
the number `0`, so no ConflictingFields error is raised and the plan is
built and executed via the measure-target branch. -/
theorem metric_conflict_check_skipped_at_zero_target :
    zeroTargetConfig.target_value.isSome = true ∧
    zeroTargetConfig.target_column.isSome = true ∧
    (fetchMetricChartData testModel [] zeroTargetConfig q0).error = none ∧
    (fetchMetricChartData testModel [] zeroTargetConfig q0).executed = true := by
  decide

/-- Claim C1 (amended): for every Metric configuration in which
`target_value` is set to a nonzero number and `target_column` is set to a
non-empty name, compiling fails with the ConflictingFields error
`Target value and target column cannot be used together`, regardless of the
other fields; the query state is untouched and nothing is executed. -/
theorem metric_truthy_target_conflict
    (model : DataModel) (filters : List FilterArgs) (config : MetricChartConfig)
    (q : QueryState)
    (hv : numTruthy config.target_value = true)
    (hc : strTruthy config.target_column = true) :
    fetchMetricChartData model filters config q =
      ⟨q, some (.conflictingFields "Target value and target column cannot be used together"),
       false⟩ := by
  unfold fetchMetricChartData
  simp [hv, hc]

theorem metric_truthy_target_conflict_witness :
    numTruthy (some (100 : Int)) = true ∧
    fetchMetricChartData testModel [] ⟨some "signups", some 100, some "goal", none⟩ q0 =
      ⟨q0, some (.conflictingFields "Target value and target column cannot be used together"),
       false⟩ :=
  ⟨by decide, metric_truthy_target_conflict testModel [] _ q0 (by decide) (by decide)⟩

/-- Claim C5: for every chart type and configuration, whenever a compile
fails with one of the configuration errors (MissingField, ConflictingFields
or UnknownColumn — the only errors this module throws), the throw happens
before any operation is appended: the query state is exactly the one from
before the compile and `execute()` is not called. -/
theorem config_errors_leave_query_unchanged
    (model : DataModel) (filters : List FilterArgs) (q : QueryState) :
    (∀ config e, (fetchAxisChartData model filters config q).error = some e →
      (fetchAxisChartData model filters config q).query = q ∧
      (fetchAxisChartData model filters config q).executed = false) ∧
    (∀ config e, (fetchMetricChartData model filters config q).error = some e →
      (fetchMetricChartData model filters config q).query = q ∧
      (fetchMetricChartData model filters config q).executed = false) ∧
    (∀ config e, (fetchDonutChartData model filters config q).error = some e →
      (fetchDonutChartData model filters config q).query = q ∧
      (fetchDonutChartData model filters config q).executed = false) ∧
    (∀ config e, (fetchTableChartData model filters config q).error = some e →
      (fetchTableChartData model filters config q).query = q ∧
      (fetchTableChartData model filters config q).executed = false) := by
  refine ⟨fun config e h => ?_, fun config e h => ?_,
          fun config e h => ?_, fun config e h => ?_⟩
  · rcases fetchAxis_cases model filters config q with ⟨e', he⟩ | ⟨row, _, he⟩ <;>
      rw [he] at h ⊢
    · exact ⟨rfl, rfl⟩
    · simp at h
  · rcases fetchMetric_cases model filters config q with ⟨e', he⟩ | ⟨metric, _, he⟩ <;>
      rw [he] at h ⊢
    · exact ⟨rfl, rfl⟩
    · simp at h
  · rcases fetchDonut_cases model filters config q with ⟨e', he⟩ | ⟨label, value, _, _, he⟩ <;>
      rw [he] at h ⊢
    · exact ⟨rfl, rfl⟩
    · simp at h
  · rcases fetchTable_cases model filters config q with ⟨e', he⟩ | he <;>
      rw [he] at h ⊢
    · exact ⟨rfl, rfl⟩
    · simp at h

theorem config_errors_leave_query_unchanged_witness :
    (fetchAxisChartData testModel [] ⟨none, none, none⟩ q0).error =
      some (.missingField "X-axis is required") ∧
    (fetchAxisChartData testModel [] ⟨none, none, none⟩ q0).query = q0 ∧
    (fetchAxisChartData testModel [] ⟨none, none, none⟩ q0).executed = false :=
  ⟨rfl,
   (config_errors_leave_query_unchanged testModel [] q0).1
     ⟨none, none, none⟩ (.missingField "X-axis is required") rfl⟩

/-- Claim C8: every successful compile, for every chart type, starts from
the base reset — the data source and the upstream operation list are copied
from the model query — and when the chart's filter set is non-empty a
single add-filter operation with exactly those filters sits immediately
after the copied upstream operations, before the chart-type-specific
operations (which never include a filter operation); when the filter set is
empty no filter operation is appended. -/
theorem compiles_start_from_base_reset_with_filters
    (model : DataModel) (filters : List FilterArgs) (q : QueryState) :
    (∀ config, (fetchAxisChartData model filters config q).error = none →
      (fetchAxisChartData model filters config q).query.dataSource = model.query.dataSource ∧
      ∃ rest, (∀ fs, Operation.filter fs ∉ rest) ∧
        (fetchAxisChartData model filters config q).query.operations =
          model.query.operations ++
            (if filters.isEmpty then [] else [Operation.filter filters]) ++ rest) ∧
    (∀ config, (fetchMetricChartData model filters config q).error = none →
      (fetchMetricChartData model filters config q).query.dataSource = model.query.dataSource ∧
      ∃ rest, (∀ fs, Operation.filter fs ∉ rest) ∧
        (fetchMetricChartData model filters config q).query.operations =
          model.query.operations ++
            (if filters.isEmpty then [] else [Operation.filter filters]) ++ rest) ∧
    (∀ config, (fetchDonutChartData model filters config q).error = none →
      (fetchDonutChartData model filters config q).query.dataSource = model.query.dataSource ∧
      ∃ rest, (∀ fs, Operation.filter fs ∉ rest) ∧
        (fetchDonutChartData model filters config q).query.operations =
          model.query.operations ++
            (if filters.isEmpty then [] else [Operation.filter filters]) ++ rest) ∧
    (∀ config, (fetchTableChartData model filters config q).error = none →
      (fetchTableChartData model filters config q).query.dataSource = model.query.dataSource ∧
      ∃ rest, (∀ fs, Operation.filter fs ∉ rest) ∧
        (fetchTableChartData model filters config q).query.operations =
          model.query.operations ++
            (if filters.isEmpty then [] else [Operation.filter filters]) ++ rest) := by
  refine ⟨fun config hok => ?_, fun config hok => ?_,
          fun config hok => ?_, fun config hok => ?_⟩
  · rcases fetchAxis_cases model filters config q with ⟨e', he⟩ | ⟨row, _, he⟩
    · rw [he] at hok; simp at hok
    · rw [he]; dsimp only
      refine ⟨prepareAxisChartQuery_dataSource model filters row _ _ q, ?_⟩
      rw [prepareAxisChartQuery_operations, resetQuery_operations]
      refine ⟨_, ?_, rfl⟩
      rcases getDimensionOpt model config.split_by with _ | c <;> simp
  · rcases fetchMetric_cases model filters config q with ⟨e', he⟩ | ⟨metric, _, he⟩
    · rw [he] at hok; simp at hok
    · rw [he]; dsimp only
      refine ⟨prepareMetricQuery_dataSource model filters metric _ _ q, ?_⟩
      rw [prepareMetricQuery_operations, resetQuery_operations]
      refine ⟨_, ?_, rfl⟩
      rcases resolveMetricTarget model config with _ | ⟨n | tm⟩ <;>
        rcases getDimensionOpt model config.date_column with _ | d <;>
        simp <;> split <;> simp
  · rcases fetchDonut_cases model filters config q with ⟨e', he⟩ | ⟨label, value, _, _, he⟩
    · rw [he] at hok; simp at hok
    · rw [he]; dsimp only
      refine ⟨prepareDonutQuery_dataSource model filters label value q, ?_⟩
      rw [prepareDonutQuery_operations, resetQuery_operations]
      refine ⟨_, ?_, rfl⟩
      simp
  · rcases fetchTable_cases model filters config q with ⟨e', he⟩ | he
    · rw [he] at hok; simp at hok
    · rw [he]; dsimp only
      refine ⟨prepareTableQuery_dataSource model filters _ _ _ q, ?_⟩
      rw [prepareTableQuery_operations, resetQuery_operations]
      refine ⟨_, ?_, rfl⟩
      rcases config.columns.filterMap model.getDimension with _ | ⟨c, cs⟩ <;> simp

theorem compiles_start_from_base_reset_with_filters_witness :
    (fetchDonutChartData testModel ["f1"] ⟨some "region", some "revenue"⟩ q0).error = none ∧
    ((fetchDonutChartData testModel ["f1"] ⟨some "region", some "revenue"⟩ q0).query.dataSource =
        testModel.query.dataSource ∧
      ∃ rest, (∀ fs, Operation.filter fs ∉ rest) ∧
        (fetchDonutChartData testModel ["f1"] ⟨some "region", some "revenue"⟩ q0).query.operations =
          testModel.query.operations ++
            (if (["f1"] : List FilterArgs).isEmpty then [] else [Operation.filter ["f1"]]) ++ rest) :=
  ⟨rfl,
   (compiles_start_from_base_reset_with_filters testModel ["f1"] q0).2.2.1
     ⟨some "region", some "revenue"⟩ rfl⟩

/-- Claim C3: for every Axis configuration that compiles successfully, if
`split_by` resolves to a Dimension the plan is the base reset followed by
exactly one pivot-wider operation (rows = [x_axis dimension], columns =
[split_by dimension], values = resolved measures) and no summarize is
emitted; if `split_by` is absent or unresolvable the plan is the base reset
followed by exactly one summarize operation (dimensions = [x_axis],
measures = resolved measures) and no pivot-wider is emitted. -/
theorem axis_split_by_pivot_vs_summarize
    (model : DataModel) (filters : List FilterArgs) (config : AxisChartConfig)
    (q : QueryState)
    (hok : (fetchAxisChartData model filters config q).error = none) :
    ∃ row, getDimensionOpt model config.x_axis = some row ∧
      (∀ c, getDimensionOpt model config.split_by = some c →
        (fetchAxisChartData model filters config q).query.operations =
          (resetQuery model filters q).operations ++
            [Operation.pivotWider [row] [c]
              (defaultedValues (resolveYAxis model config.y_axis))]) ∧
      (getDimensionOpt model config.split_by = none →
        (fetchAxisChartData model filters config q).query.operations =
          (resetQuery model filters q).operations ++
            [Operation.summarize
              (defaultedValues (resolveYAxis model config.y_axis)) [row]]) := by
  rcases fetchAxis_cases model filters config q with ⟨e', he⟩ | ⟨row, hrow, he⟩
  · rw [he] at hok; simp at hok
  · refine ⟨row, hrow, fun c hc => ?_, fun hc => ?_⟩
    · rw [he]; dsimp only
      rw [prepareAxisChartQuery_operations, hc]
    · rw [he]; dsimp only
      rw [prepareAxisChartQuery_operations, hc]

theorem axis_split_by_pivot_vs_summarize_witness :
    (fetchAxisChartData testModel []
        ⟨some "region", some "quarter", some ["revenue"]⟩ q0).error = none ∧
    ∃ row, getDimensionOpt testModel (some "region") = some row ∧
      (∀ c, getDimensionOpt testModel (some "quarter") = some c →
        (fetchAxisChartData testModel []
            ⟨some "region", some "quarter", some ["revenue"]⟩ q0).query.operations =
          (resetQuery testModel [] q0).operations ++
            [Operation.pivotWider [row] [c]
              (defaultedValues (resolveYAxis testModel (some ["revenue"])))]) ∧
      (getDimensionOpt testModel (some "quarter") = none →
        (fetchAxisChartData testModel []
            ⟨some "region", some "quarter", some ["revenue"]⟩ q0).query.operations =
          (resetQuery testModel [] q0).operations ++
            [Operation.summarize
              (defaultedValues (resolveYAxis testModel (some ["revenue"]))) [row]]) :=
  ⟨rfl, axis_split_by_pivot_vs_summarize testModel []
    ⟨some "region", some "quarter", some ["revenue"]⟩ q0 rfl⟩

/-- `defaultedValues` substitutes the single row-count measure whenever the
y-axis list is absent or resolves to no measures. -/
theorem defaultedValues_empty_yaxis (model : DataModel) (y : Option (List String))
    (h : ∀ ys, y = some ys → ys.filterMap model.getMeasure = []) :
    defaultedValues (resolveYAxis model y) = [count] := by
  rcases y with _ | ys
  · rfl
  · have hys := h ys rfl
    simp [resolveYAxis, defaultedValues, hys]

/-- Claim C6: for every Axis configuration whose y_axis resolves to an
empty measure list (absent, empty, or all entries unresolvable), a
successful compile emits a plan whose measure/value list is exactly the
single default row-count measure, in both the pivot-wider and the
summarize build paths. -/
theorem axis_empty_yaxis_count_measure
    (model : DataModel) (filters : List FilterArgs) (config : AxisChartConfig)
    (q : QueryState)
    (hempty : ∀ ys, config.y_axis = some ys → ys.filterMap model.getMeasure = [])
    (hok : (fetchAxisChartData model filters config q).error = none) :
    ∃ row, getDimensionOpt model config.x_axis = some row ∧
      ((∃ c, getDimensionOpt model config.split_by = some c ∧
        (fetchAxisChartData model filters config q).query.operations =
          (resetQuery model filters q).operations ++
            [Operation.pivotWider [row] [c] [count]]) ∨
       (getDimensionOpt model config.split_by = none ∧
        (fetchAxisChartData model filters config q).query.operations =
          (resetQuery model filters q).operations ++
            [Operation.summarize [count] [row]])) := by
  rcases fetchAxis_cases model filters config q with ⟨e', he⟩ | ⟨row, hrow, he⟩
  · rw [he] at hok; simp at hok
  · have hd : defaultedValues (resolveYAxis model config.y_axis) = [count] :=
      defaultedValues_empty_yaxis model config.y_axis hempty
    refine ⟨row, hrow, ?_⟩
    rcases hc : getDimensionOpt model config.split_by with _ | c
    · refine Or.inr ⟨rfl, ?_⟩
      rw [he]; dsimp only
      rw [prepareAxisChartQuery_operations, hc, hd]
    · refine Or.inl ⟨c, rfl, ?_⟩
      rw [he]; dsimp only
      rw [prepareAxisChartQuery_operations, hc, hd]

theorem axis_empty_yaxis_count_measure_witness :
    (fetchAxisChartData testModel [] ⟨some "region", none, some ["nope"]⟩ q0).error = none ∧
    ∃ row, getDimensionOpt testModel (some "region") = some row ∧
      ((∃ c, getDimensionOpt testModel (none : Option String) = some c ∧
        (fetchAxisChartData testModel [] ⟨some "region", none, some ["nope"]⟩ q0).query.operations =
          (resetQuery testModel [] q0).operations ++
            [Operation.pivotWider [row] [c] [count]]) ∨
       (getDimensionOpt testModel (none : Option String) = none ∧
        (fetchAxisChartData testModel [] ⟨some "region", none, some ["nope"]⟩ q0).query.operations =
          (resetQuery testModel [] q0).operations ++
            [Operation.summarize [count] [row]])) :=
  ⟨rfl, axis_empty_yaxis_count_measure testModel []
    ⟨some "region", none, some ["nope"]⟩ q0 (by decide) rfl⟩

/-- Claim C4: for every Table configuration that compiles successfully,
exactly one build path is taken, decided by the emptiness of the resolved
columns list: empty resolved columns yields the base reset plus one
summarize operation (dimensions = resolved rows, measures = resolved
values); non-empty resolved columns yields the base reset plus one
pivot-wider operation (rows, columns, values).  The two outcomes are
exhaustive and mutually exclusive. -/
theorem table_columns_emptiness_selects_branch
    (model : DataModel) (filters : List FilterArgs) (config : TableChartConfig)
    (q : QueryState)
    (hok : (fetchTableChartData model filters config q).error = none) :
    (config.columns.filterMap model.getDimension = [] →
      (fetchTableChartData model filters config q).query.operations =
        (resetQuery model filters q).operations ++
          [Operation.summarize (config.values.filterMap model.getMeasure)
            (config.rows.filterMap model.getDimension)]) ∧
    (config.columns.filterMap model.getDimension ≠ [] →
      (fetchTableChartData model filters config q).query.operations =
        (resetQuery model filters q).operations ++
          [Operation.pivotWider (config.rows.filterMap model.getDimension)
            (config.columns.filterMap model.getDimension)
            (config.values.filterMap model.getMeasure)]) := by
  rcases fetchTable_cases model filters config q with ⟨e', he⟩ | he
  · rw [he] at hok; simp at hok
  · constructor
    · intro hc
      rw [he]; dsimp only
      rw [prepareTableQuery_operations, hc]
    · intro hc
      rcases hcc : config.columns.filterMap model.getDimension with _ | ⟨c, cs⟩
      · exact absurd hcc hc
      · rw [he]; dsimp only
        rw [prepareTableQuery_operations, hcc]

theorem table_columns_emptiness_selects_branch_witness :
    (fetchTableChartData testModel [] ⟨["region"], ["quarter"], ["revenue"]⟩ q0).error = none ∧
    (((["quarter"] : List String).filterMap testModel.getDimension = [] →
      (fetchTableChartData testModel [] ⟨["region"], ["quarter"], ["revenue"]⟩ q0).query.operations =
        (resetQuery testModel [] q0).operations ++
          [Operation.summarize ((["revenue"] : List String).filterMap testModel.getMeasure)
            ((["region"] : List String).filterMap testModel.getDimension)]) ∧
    ((["quarter"] : List String).filterMap testModel.getDimension ≠ [] →
      (fetchTableChartData testModel [] ⟨["region"], ["quarter"], ["revenue"]⟩ q0).query.operations =
        (resetQuery testModel [] q0).operations ++
          [Operation.pivotWider ((["region"] : List String).filterMap testModel.getDimension)
            ((["quarter"] : List String).filterMap testModel.getDimension)
            ((["revenue"] : List String).filterMap testModel.getMeasure)])) :=
  ⟨rfl, table_columns_emptiness_selects_branch testModel []
    ⟨["region"], ["quarter"], ["revenue"]⟩ q0 rfl⟩

/-- Claim C10: for every Table configuration whose rows list is non-empty
but in which no rows entry resolves to a Dimension, the compile does not
fail: row resolution is best-effort, the plan is built and submitted for
execution, and (when the resolved columns list is also empty) it is the
base reset plus a summarize with empty dimensions and the resolved
values. -/
theorem table_unresolvable_rows_still_builds
    (model : DataModel) (filters : List FilterArgs) (config : TableChartConfig)
    (q : QueryState)
    (hne : config.rows ≠ [])
    (hunres : ∀ r ∈ config.rows, model.getDimension r = none) :
    (fetchTableChartData model filters config q).error = none ∧
    (fetchTableChartData model filters config q).executed = true ∧
    (config.columns.filterMap model.getDimension = [] →
      (fetchTableChartData model filters config q).query.operations =
        (resetQuery model filters q).operations ++
          [Operation.summarize (config.values.filterMap model.getMeasure) []]) := by
  have hrows : config.rows.filterMap model.getDimension = [] :=
    List.filterMap_eq_nil_iff.mpr hunres
  have hcond : (config.rows.length == 0) = false := by
    rcases hr : config.rows with _ | ⟨a, l⟩
    · exact absurd hr hne
    · rfl
  unfold fetchTableChartData
  rw [if_neg (by simp [hcond])]
  refine ⟨rfl, rfl, fun hc => ?_⟩
  dsimp only
  rw [prepareTableQuery_operations, hc, hrows]

theorem table_unresolvable_rows_still_builds_witness :
    (["nope"] : List String) ≠ [] ∧
    ((fetchTableChartData testModel [] ⟨["nope"], ["alsono"], ["revenue"]⟩ q0).error = none ∧
     (fetchTableChartData testModel [] ⟨["nope"], ["alsono"], ["revenue"]⟩ q0).executed = true ∧
     ((["alsono"] : List String).filterMap testModel.getDimension = [] →
       (fetchTableChartData testModel [] ⟨["nope"], ["alsono"], ["revenue"]⟩ q0).query.operations =
         (resetQuery testModel [] q0).operations ++
           [Operation.summarize ((["revenue"] : List String).filterMap testModel.getMeasure) []])) :=
  ⟨by decide, table_unresolvable_rows_still_builds testModel []
    ⟨["nope"], ["alsono"], ["revenue"]⟩ q0 (by decide) (by decide)⟩

/-- Claim C7: for every Donut configuration that compiles successfully,
the emitted plan is the base reset followed by a summarize with
dimensions = [label] and measures = [value] and then an order-by on the
resolved value measure's underlying column name, direction descending; in
particular the order-by is the plan's final operation. -/
theorem donut_plan_ends_with_orderby_desc
    (model : DataModel) (filters : List FilterArgs) (config : DountChartConfig)
    (q : QueryState)
    (hok : (fetchDonutChartData model filters config q).error = none) :
    ∃ label value,
      getDimensionOpt model config.label_column = some label ∧
      getMeasureOpt model config.value_column = some value ∧
      (fetchDonutChartData model filters config q).query.operations =
        (resetQuery model filters q).operations ++
          [Operation.summarize [value] [label],
           Operation.orderBy value.column_name "desc"] ∧
      (fetchDonutChartData model filters config q).query.operations.getLast? =
        some (Operation.orderBy value.column_name "desc") := by
  rcases fetchDonut_cases model filters config q with ⟨e', he⟩ | ⟨label, value, hl, hv, he⟩
  · rw [he] at hok; simp at hok
  · refine ⟨label, value, hl, hv, ?_, ?_⟩
    · rw [he]; dsimp only
      rw [prepareDonutQuery_operations]
    · rw [he]; dsimp only
      rw [prepareDonutQuery_operations,
        show (resetQuery model filters q).operations ++
            [Operation.summarize [value] [label],
             Operation.orderBy value.column_name "desc"] =
          ((resetQuery model filters q).operations ++
            [Operation.summarize [value] [label]]) ++
            [Operation.orderBy value.column_name "desc"] by simp,
        List.getLast?_concat]

theorem donut_plan_ends_with_orderby_desc_witness :
    (fetchDonutChartData testModel [] ⟨some "region", some "revenue"⟩ q0).error = none ∧
    ∃ label value,
      getDimensionOpt testModel (some "region") = some label ∧
      getMeasureOpt testModel (some "revenue") = some value ∧
      (fetchDonutChartData testModel [] ⟨some "region", some "revenue"⟩ q0).query.operations =
        (resetQuery testModel [] q0).operations ++
          [Operation.summarize [value] [label],
           Operation.orderBy value.column_name "desc"] ∧
      (fetchDonutChartData testModel [] ⟨some "region", some "revenue"⟩ q0).query.operations.getLast? =
        some (Operation.orderBy value.column_name "desc") :=
  ⟨rfl, donut_plan_ends_with_orderby_desc testModel [] ⟨some "region", some "revenue"⟩ q0 rfl⟩

/-- Claim C2: for every Metric configuration whose `target_value` is a
non-positive literal, a successful compile never takes the literal-target
branch: no derive/mutate operation creating a `target` field is emitted,
and the plan is the base reset plus a single summarize from one of the
later branches — measure target ([metric, target_measure], no dimensions),
date dimension ([metric] over [date]), or plain ([metric], no
dimensions). -/
theorem metric_nonpositive_target_no_literal_branch
    (model : DataModel) (filters : List FilterArgs) (config : MetricChartConfig)
    (q : QueryState) (t : Int)
    (hv : config.target_value = some t) (ht : t ≤ 0)
    (hok : (fetchMetricChartData model filters config q).error = none) :
    ∃ metric op,
      getMeasureOpt model config.metric_column = some metric ∧
      (fetchMetricChartData model filters config q).query.operations =
        (resetQuery model filters q).operations ++ [op] ∧
      ((∃ tm, getMeasureOpt model config.target_column = some tm ∧
          op = Operation.summarize [metric, tm] []) ∨
       (∃ d, getDimensionOpt model config.date_column = some d ∧
          op = Operation.summarize [metric] [d]) ∨
       op = Operation.summarize [metric] []) := by
  rcases fetchMetric_cases model filters config q with ⟨e', he⟩ | ⟨metric, hmetric, he⟩
  · rw [he] at hok; simp at hok
  · rcases eq_or_lt_of_le ht with h0 | hneg
    · subst h0
      rcases htc : getMeasureOpt model config.target_column with _ | tm
      · have htarget : resolveMetricTarget model config = none := by
          unfold resolveMetricTarget
          simp [hv, htc, numTruthy]
        rcases hd : getDimensionOpt model config.date_column with _ | d
        · refine ⟨metric, Operation.summarize [metric] [], hmetric, ?_,
            Or.inr (Or.inr rfl)⟩
          rw [he]; dsimp only
          rw [prepareMetricQuery_operations, htarget, hd]
        · refine ⟨metric, Operation.summarize [metric] [d], hmetric, ?_,
            Or.inr (Or.inl ⟨d, rfl, rfl⟩)⟩
          rw [he]; dsimp only
          rw [prepareMetricQuery_operations, htarget, hd]
      · have htarget : resolveMetricTarget model config = some (Sum.inr tm) := by
          unfold resolveMetricTarget
          simp [hv, htc, numTruthy]
        refine ⟨metric, Operation.summarize [metric, tm] [], hmetric, ?_,
          Or.inl ⟨tm, rfl, rfl⟩⟩
        rcases hd : getDimensionOpt model config.date_column with _ | d <;>
          · rw [he]; dsimp only
            rw [prepareMetricQuery_operations, htarget, hd]
    · have htarget : resolveMetricTarget model config = some (Sum.inl t) := by
        unfold resolveMetricTarget
        simp [hv, numTruthy, hneg.ne]
      rcases hd : getDimensionOpt model config.date_column with _ | d
      · refine ⟨metric, Operation.summarize [metric] [], hmetric, ?_,
          Or.inr (Or.inr rfl)⟩
        rw [he]; dsimp only
        rw [prepareMetricQuery_operations, htarget, hd]
        dsimp only
        rw [if_neg (by omega)]
      · refine ⟨metric, Operation.summarize [metric] [d], hmetric, ?_,
          Or.inr (Or.inl ⟨d, rfl, rfl⟩)⟩
        rw [he]; dsimp only
        rw [prepareMetricQuery_operations, htarget, hd]
        dsimp only
        rw [if_neg (by omega)]

theorem metric_nonpositive_target_no_literal_branch_witness :
    (MetricChartConfig.mk (some "signups") (some 0) none none).target_value = some 0 ∧
    (0 : Int) ≤ 0 ∧
    ∃ metric op,
      getMeasureOpt testModel (some "signups") = some metric ∧
      (fetchMetricChartData testModel [] ⟨some "signups", some 0, none, none⟩ q0).query.operations =
        (resetQuery testModel [] q0).operations ++ [op] ∧
      ((∃ tm, getMeasureOpt testModel (none : Option String) = some tm ∧
          op = Operation.summarize [metric, tm] []) ∨
       (∃ d, getDimensionOpt testModel (none : Option String) = some d ∧
          op = Operation.summarize [metric] [d]) ∨
       op = Operation.summarize [metric] []) :=
  ⟨rfl, by decide,
   metric_nonpositive_target_no_literal_branch testModel []
     ⟨some "signups", some 0, none, none⟩ q0 0 rfl (by decide) rfl⟩

end Insights
